import Mathlib

/-!
Verification of the Truck-Route backend HOS core.

The definitions below are a shallow embedding of the two core modules of the
repository: `route_planner/hos_calculator.py` (the schedule builder) and
`route_planner/log_generator.py` (the ELD log partitioner).

Modelling conventions:
* Python floats are modelled as exact rationals (`ℚ`); the algorithm performs
  only field arithmetic, so its control flow is faithfully captured and
  "floating-point tolerance" statements become exact equalities.
* `datetime` values are modelled as rational hours measured from an arbitrary
  epoch midnight; `timedelta(hours=h)` is addition, `.date()` is
  `⌊t / 24⌋`, and `.time() > time(0, 0)` is `t - 24⬝⌊t / 24⌋ > 0`.
  The wall-clock reading `datetime.now().replace(minute=0, ...)` taken at the
  top of `calculate_schedule` becomes an explicit `start_time` parameter.
* The two nested `while` loops of `calculate_schedule` are modelled with an
  explicit pass budget ("fuel budget") for the inner loop, returning `none`
  when the budget is exhausted, and structural recursion over the segment list
  for the outer loop.  Termination of the Python code corresponds to some
  budget returning `some`.
* Python dictionaries become structures with the same field names; list
  `append` becomes `++ [x]`.
-/

/-! ## Data model -/

/-- Location dictionary: address / lat / lng. -/
structure Location where
  address : String
  lat : ℚ
  lng : ℚ
deriving DecidableEq, Repr

/-- Route segment dictionary: start/end location, distance (miles), duration (hours). -/
structure Segment where
  start_location : Location
  end_location : Location
  distance : ℚ
  duration : ℚ
deriving DecidableEq, Repr

/-- The route dictionary consumed by `calculate_schedule`. -/
structure RouteData where
  locations : List Location
  segments : List Segment
  total_distance : ℚ
  total_duration : ℚ
deriving DecidableEq, Repr

/-- Stop dictionary appended to the `stops` list by `calculate_schedule`. -/
structure Stop where
  location : Location
  arrival_time : ℚ
  departure_time : ℚ
  stop_type : String
  duration : ℚ
deriving DecidableEq, Repr

/-- Scheduled (possibly split) segment appended to `modified_segments`. -/
structure SchedSegment where
  start_location : Location
  end_location : Location
  distance : ℚ
  duration : ℚ
  start_time : ℚ
  end_time : ℚ
deriving DecidableEq, Repr

/-- The result dictionary of `calculate_schedule`: the deep copy of the route
with `stops`, `segments`, `start_time`, `end_time` overwritten. -/
structure ScheduleResult where
  locations : List Location
  total_distance : ℚ
  total_duration : ℚ
  stops : List Stop
  segments : List SchedSegment
  start_time : ℚ
  end_time : ℚ
deriving DecidableEq, Repr

def dummyLocation : Location := { address := "", lat := 0, lng := 0 }

def dummySegment : Segment :=
  { start_location := dummyLocation, end_location := dummyLocation, distance := 0, duration := 0 }

def dummySchedSegment : SchedSegment :=
  { start_location := dummyLocation, end_location := dummyLocation, distance := 0,
    duration := 0, start_time := 0, end_time := 0 }

def dummyResult : ScheduleResult :=
  { locations := [], total_distance := 0, total_duration := 0, stops := [],
    segments := [], start_time := 0, end_time := 0 }

/-! ## HOS constants (class attributes of `HOSCalculator`) -/

def MAX_DRIVING_HOURS : ℚ := 11
def MAX_DUTY_WINDOW : ℚ := 14
def MAX_DRIVING_WITHOUT_BREAK : ℚ := 8
def MIN_BREAK_DURATION : ℚ := 1 / 2
def MIN_REST_DURATION : ℚ := 10
def PICKUP_DROPOFF_DURATION : ℚ := 1
def MAX_CYCLE_HOURS : ℚ := 70
def FUELING_INTERVAL_MILES : ℚ := 1000
def FUELING_DURATION : ℚ := 1 / 2

/-! ## Loop state of `calculate_schedule` -/

/-- All local variables of `calculate_schedule` that are live across loop
iterations (clock counters, position bookkeeping, accumulated output). -/
structure CalcState where
  current_time : ℚ
  available_driving_hours : ℚ
  available_window_hours : ℚ
  hours_since_break : ℚ
  remaining_cycle_hours : ℚ
  accumulated_distance : ℚ
  last_fuel_distance : ℚ
  is_pickup : Bool
  is_dropoff : Bool
  current_location : Location
  next_location : Location
  remaining_segment : Segment
  stops : List Stop
  modified_segments : List SchedSegment
deriving DecidableEq, Repr

/-- Every stop dictionary in the source is built the same way: arrival at the
current clock, departure after `d` hours, `duration` field equal to `d`. -/
def mkStop (loc : Location) (t : ℚ) (ty : String) (d : ℚ) : Stop :=
  { location := loc, arrival_time := t, departure_time := t + d,
    stop_type := ty, duration := d }

/-- Lines 113-125: mandatory 30-minute break when 8 hours were driven since
the last break. -/
def breakCheck (s : CalcState) : CalcState :=
  if MAX_DRIVING_WITHOUT_BREAK ≤ s.hours_since_break then
    { s with
      stops := s.stops ++ [mkStop s.current_location s.current_time "break" MIN_BREAK_DURATION],
      current_time := s.current_time + MIN_BREAK_DURATION,
      hours_since_break := 0,
      available_window_hours := s.available_window_hours - MIN_BREAK_DURATION }
  else s

/-- Lines 127-140: fueling stop every 1000 accumulated miles. -/
def fuelCheck (s : CalcState) : CalcState :=
  if FUELING_INTERVAL_MILES ≤ s.accumulated_distance - s.last_fuel_distance then
    { s with
      stops := s.stops ++ [mkStop s.current_location s.current_time "fuel" FUELING_DURATION],
      current_time := s.current_time + FUELING_DURATION,
      available_window_hours := s.available_window_hours - FUELING_DURATION,
      last_fuel_distance := s.accumulated_distance }
  else s

/-- Lines 142-155: one-hour pickup activity on the first segment. -/
def pickupCheck (s : CalcState) : CalcState :=
  if s.is_pickup then
    { s with
      stops := s.stops ++ [mkStop s.next_location s.current_time "pickup" PICKUP_DROPOFF_DURATION],
      current_time := s.current_time + PICKUP_DROPOFF_DURATION,
      available_window_hours := s.available_window_hours - PICKUP_DROPOFF_DURATION,
      remaining_cycle_hours := s.remaining_cycle_hours - PICKUP_DROPOFF_DURATION,
      is_pickup := false }
  else s

/-- Lines 157-169: one-hour dropoff activity on the last segment. -/
def dropoffCheck (s : CalcState) : CalcState :=
  if s.is_dropoff then
    { s with
      stops := s.stops ++ [mkStop s.next_location s.current_time "dropoff" PICKUP_DROPOFF_DURATION],
      current_time := s.current_time + PICKUP_DROPOFF_DURATION,
      available_window_hours := s.available_window_hours - PICKUP_DROPOFF_DURATION,
      remaining_cycle_hours := s.remaining_cycle_hours - PICKUP_DROPOFF_DURATION,
      is_dropoff := false }
  else s

/-- The break / fuel / pickup / dropoff insertions performed at the top of
every iteration of the inner `while not segment_processed` loop, in the fixed
source order. -/
def checksStep (s : CalcState) : CalcState :=
  dropoffCheck (pickupCheck (fuelCheck (breakCheck s)))

/-- Lines 172-178: `max_driving_time`, the straight numeric minimum of the
five limiting quantities, in source order. -/
def maxDrivingTime (s : CalcState) : ℚ :=
  min (min (min (min s.available_driving_hours s.available_window_hours)
    s.remaining_segment.duration) (MAX_DRIVING_WITHOUT_BREAK - s.hours_since_break))
    s.remaining_cycle_hours

/-- Lines 180-196: ten-hour rest period resetting driving and window clocks. -/
def restStep (s : CalcState) : CalcState :=
  { s with
    stops := s.stops ++ [mkStop s.current_location s.current_time "rest" MIN_REST_DURATION],
    current_time := s.current_time + MIN_REST_DURATION,
    available_driving_hours := MAX_DRIVING_HOURS,
    available_window_hours := MAX_DUTY_WINDOW,
    hours_since_break := 0 }

/-- Both scheduled-segment dictionaries in the source share this shape:
`end_time` is `start_time` plus the duration. -/
def mkSchedSegment (l1 l2 : Location) (dist dur t : ℚ) : SchedSegment :=
  { start_location := l1, end_location := l2, distance := dist, duration := dur,
    start_time := t, end_time := t + dur }

/-- Line 211-214: the synthetic end location of a split segment. -/
def midLocation (segIdx : ℕ) (a b : Location) : Location :=
  { address := "Intermediate point " ++ toString segIdx,
    lat := (a.lat + b.lat) / 2,
    lng := (a.lng + b.lng) / 2 }

/-- Lines 172-258: after the insertions, either rest (`max_driving_time ≤ 0`)
or drive, splitting the segment when the drivable fraction is below one.
Returns the new state and the `segment_processed` flag. -/
def driveOrRest (segIdx : ℕ) (s : CalcState) : CalcState × Bool :=
  let m := maxDrivingTime s
  if m ≤ 0 then
    (restStep s, false)
  else
    let segment_progress := m / s.remaining_segment.duration
    let distance_covered := s.remaining_segment.distance * segment_progress
    let s := { s with accumulated_distance := s.accumulated_distance + distance_covered }
    if segment_progress < 1 then
      let endLoc := midLocation segIdx s.current_location s.next_location
      ({ s with
        modified_segments := s.modified_segments ++
          [mkSchedSegment s.current_location endLoc distance_covered m s.current_time],
        current_location := endLoc,
        remaining_segment := { s.remaining_segment with
          distance := s.remaining_segment.distance - distance_covered,
          duration := s.remaining_segment.duration - m },
        current_time := s.current_time + m,
        available_driving_hours := s.available_driving_hours - m,
        available_window_hours := s.available_window_hours - m,
        hours_since_break := s.hours_since_break + m,
        remaining_cycle_hours := s.remaining_cycle_hours - m }, false)
    else
      ({ s with
        modified_segments := s.modified_segments ++
          [mkSchedSegment s.current_location s.next_location s.remaining_segment.distance
            s.remaining_segment.duration s.current_time],
        current_time := s.current_time + s.remaining_segment.duration,
        available_driving_hours := s.available_driving_hours - s.remaining_segment.duration,
        available_window_hours := s.available_window_hours - s.remaining_segment.duration,
        hours_since_break := s.hours_since_break + s.remaining_segment.duration,
        remaining_cycle_hours := s.remaining_cycle_hours - s.remaining_segment.duration }, true)

/-- One iteration of the inner `while not segment_processed` loop. -/
def passStep (segIdx : ℕ) (s : CalcState) : CalcState × Bool :=
  driveOrRest segIdx (checksStep s)

/-- The inner `while not segment_processed` loop, with an explicit bound on
the number of iterations; `none` when the bound is exhausted. -/
def processSegmentLoop : ℕ → ℕ → CalcState → Option CalcState
  | 0, _, _ => none
  | n + 1, segIdx, s =>
    let p := passStep segIdx s
    if p.2 then some p.1 else processSegmentLoop n segIdx p.1

/-- Lines 89-108: per-segment initialization performed at the top of the outer
`while segment_index < total_segments` loop: `remaining_segment` becomes a
copy of the segment and the pickup / dropoff flags and current / next
locations are chosen from the segment position. -/
def initSegmentState (route : RouteData) (total : ℕ) (segIdx : ℕ) (segment : Segment)
    (s : CalcState) : CalcState :=
  if segIdx = 0 then
    { s with
      remaining_segment := segment,
      current_location := route.locations.getD 0 dummyLocation,
      next_location := route.locations.getD 1 dummyLocation,
      is_pickup := true, is_dropoff := false }
  else if segIdx = total - 1 then
    { s with
      remaining_segment := segment,
      current_location := route.locations.getD 1 dummyLocation,
      next_location := route.locations.getD 2 dummyLocation,
      is_pickup := false, is_dropoff := true }
  else
    { s with
      remaining_segment := segment,
      current_location := segment.start_location,
      next_location := segment.end_location,
      is_pickup := false, is_dropoff := false }

/-- The outer `while segment_index < total_segments` loop: each route segment
is initialized and then consumed by the inner loop. -/
def runSegments (route : RouteData) (total : ℕ) (fuelBudget : ℕ) :
    ℕ → List Segment → CalcState → Option CalcState
  | _, [], s => some s
  | segIdx, seg :: rest, s =>
    match processSegmentLoop fuelBudget segIdx (initSegmentState route total segIdx seg s) with
    | none => none
    | some s' => runSegments route total fuelBudget (segIdx + 1) rest s'

/-- Lines 57-84: the initial loop state: fresh 11-hour and 14-hour clocks,
`remaining_cycle_hours = 70 - current_cycle_hours`, and the zero-duration
`start` stop at the first location. -/
def initialState (current_cycle_hours start_time : ℚ) (route_data : RouteData) : CalcState :=
  { current_time := start_time,
    available_driving_hours := MAX_DRIVING_HOURS,
    available_window_hours := MAX_DUTY_WINDOW,
    hours_since_break := 0,
    remaining_cycle_hours := MAX_CYCLE_HOURS - current_cycle_hours,
    accumulated_distance := 0,
    last_fuel_distance := 0,
    is_pickup := false,
    is_dropoff := false,
    current_location := dummyLocation,
    next_location := dummyLocation,
    remaining_segment := dummySegment,
    stops := [mkStop (route_data.locations.getD 0 dummyLocation) start_time "start" 0],
    modified_segments := [] }

/-- `HOSCalculator.calculate_schedule`.  `start_time` stands for the wall
clock reading `datetime.now().replace(minute=0, second=0, microsecond=0)`;
`fuelBudget` bounds the iterations of the inner loop per segment (the Python
loops are unbounded; a run of the Python code corresponds to some budget
producing `some`). -/
def calculate_schedule (current_cycle_hours start_time : ℚ) (route_data : RouteData)
    (fuelBudget : ℕ) : Option ScheduleResult :=
  match runSegments route_data route_data.segments.length fuelBudget 0 route_data.segments
      (initialState current_cycle_hours start_time route_data) with
  | none => none
  | some s =>
    some
      { locations := route_data.locations,
        total_distance := route_data.total_distance,
        total_duration := route_data.total_duration,
        stops := s.stops ++
          [mkStop (route_data.locations.getLastD dummyLocation) s.current_time "end" 0],
        segments := s.modified_segments,
        start_time := start_time,
        end_time := s.current_time }

/-- `calculate_hos_compliant_schedule` (module-level wrapper). -/
def calculate_hos_compliant_schedule (route_data : RouteData) (current_cycle_hours : ℚ)
    (start_time : ℚ) (fuelBudget : ℕ) : Option ScheduleResult :=
  calculate_schedule current_cycle_hours start_time route_data fuelBudget

/-! ## Log generator (`route_planner/log_generator.py`) -/

/-- Model of `datetime.date()`: the calendar day (number of whole days since
the epoch) containing the instant `t` (in hours). -/
def dateOf (t : ℚ) : ℤ := ⌊t / 24⌋

/-- Model of `datetime.time()` compared against midnight: the time of day of
`t`, in hours since the midnight of its date. -/
def timeOfDay (t : ℚ) : ℚ := t - 24 * (dateOf t : ℚ)

/-- Model of Python 3 `round` on our exact rationals: round half to even. -/
def pyRound (x : ℚ) : ℤ :=
  let f := ⌊x⌋
  let r := x - (f : ℚ)
  if r < 1 / 2 then f
  else if 1 / 2 < r then f + 1
  else if f % 2 = 0 then f else f + 1

def pad2 (n : ℤ) : String :=
  if n < 10 then "0" ++ toString n else toString n

def pad4 (n : ℤ) : String :=
  if n < 10 then "000" ++ toString n
  else if n < 100 then "00" ++ toString n
  else if n < 1000 then "0" ++ toString n
  else toString n

/-- Gregorian calendar date of an epoch day number (days since 1970-01-01),
the standard civil-from-days conversion; used to model `strftime('%Y%m%d')`. -/
def civilOfDay (day : ℤ) : ℤ × ℤ × ℤ :=
  let z := day + 719468
  let era := Int.fdiv z 146097
  let doe := z - era * 146097
  let yoe := (doe - doe / 1460 + doe / 36524 - doe / 146096) / 365
  let y := yoe + era * 400
  let doy := doe - (365 * yoe + yoe / 4 - yoe / 100)
  let mp := (5 * doy + 2) / 153
  let d := doy - (153 * mp + 2) / 5 + 1
  let m := mp + (if mp < 10 then 3 else -9)
  (y + (if m ≤ 2 then 1 else 0), m, d)

/-- Model of `strftime('%Y%m%d')` on a date. -/
def fmtYMD (day : ℤ) : String :=
  let c := civilOfDay day
  pad4 c.1 ++ pad2 c.2.1 ++ pad2 c.2.2

/-- Model of `strftime('%H:%M')` on an instant. -/
def fmtHM (t : ℚ) : String :=
  let tod := timeOfDay t
  let h := ⌊tod⌋
  let m := ⌊(tod - (h : ℚ)) * 60⌋
  pad2 h ++ ":" ++ pad2 m

/-- One per-day ELD log record. -/
structure LogEntry where
  date : ℤ
  off_duty : List (ℚ × ℚ)
  sleeper_berth : List (ℚ × ℚ)
  driving : List (ℚ × ℚ)
  on_duty : List (ℚ × ℚ)
  total_miles : ℚ
  carrier : String
  main_office : String
  home_terminal : String
  shipping_docs : String
  remarks : String
deriving DecidableEq, Repr

/-- Lines 34-46: the per-day log entry with default metadata. -/
def initLogEntry (current_date : ℤ) : LogEntry :=
  { date := current_date,
    off_duty := [], sleeper_berth := [], driving := [], on_duty := [],
    total_miles := 0,
    carrier := "Sample Carrier",
    main_office := "Main Office Address",
    home_terminal := "Home Terminal Address",
    shipping_docs := "N/A",
    remarks := "No remarks" }

/-- `add_activity_to_log` (lines 121-149): clip the activity interval to the
day and append it, as hour-of-day fractions, to the named bucket. -/
def add_activity_to_log (log_entry : LogEntry) (activity_type : String)
    (start_time end_time day_start : ℚ) : LogEntry :=
  let day_end := day_start + 24
  let activity_start := max start_time day_start
  let activity_end := min end_time day_end
  if activity_start ≥ day_end ∨ activity_end ≤ day_start then log_entry
  else
    let start_hour := activity_start - day_start
    let end_hour := activity_end - day_start
    if activity_type = "off_duty" then
      { log_entry with off_duty := log_entry.off_duty ++ [(start_hour, end_hour)] }
    else if activity_type = "sleeper_berth" then
      { log_entry with sleeper_berth := log_entry.sleeper_berth ++ [(start_hour, end_hour)] }
    else if activity_type = "driving" then
      { log_entry with driving := log_entry.driving ++ [(start_hour, end_hour)] }
    else if activity_type = "on_duty" then
      { log_entry with on_duty := log_entry.on_duty ++ [(start_hour, end_hour)] }
    else log_entry

/-- Lines 53-64: route one stop into its activity bucket for one day. -/
def stopFoldStep (day_start : ℚ) (e : LogEntry) (stop : Stop) : LogEntry :=
  let day_end := day_start + 24
  if stop.arrival_time ≥ day_end ∨ stop.departure_time < day_start then e
  else if stop.stop_type = "rest" then
    add_activity_to_log e "off_duty" stop.arrival_time stop.departure_time day_start
  else if stop.stop_type = "break" then
    add_activity_to_log e "off_duty" stop.arrival_time stop.departure_time day_start
  else if stop.stop_type = "pickup" ∨ stop.stop_type = "dropoff" ∨ stop.stop_type = "fuel" then
    add_activity_to_log e "on_duty" stop.arrival_time stop.departure_time day_start
  else e

/-- Lines 67-82: record one scheduled segment's driving interval and its
distance share for one day.  The division used for the proportional share is
an explicit parameter `dvd` so that it can be proved that the division is
never consulted with a zero denominator; the source behaviour is `dvd = (/)`
(see `generate_log_sheets`). -/
def segFoldStepD (dvd : ℚ → ℚ → ℚ) (day_start : ℚ) (e : LogEntry) (sg : SchedSegment) :
    LogEntry :=
  let day_end := day_start + 24
  if sg.start_time ≥ day_end ∨ sg.end_time < day_start then e
  else
    let e := add_activity_to_log e "driving" sg.start_time sg.end_time day_start
    let segment_start := max sg.start_time day_start
    let segment_end := min sg.end_time day_end
    if sg.end_time > sg.start_time then
      { e with total_miles := e.total_miles +
          sg.distance * dvd (segment_end - segment_start) (sg.end_time - sg.start_time) }
    else e

/-- Lines 85-96: the human-readable remark for one stop on one day. -/
def remarkFoldStep (current_date : ℤ) (acc : List String) (stop : Stop) : List String :=
  if dateOf stop.arrival_time = current_date then
    if stop.stop_type = "pickup" then
      acc ++ ["Pickup at " ++ stop.location.address ++ " at " ++ fmtHM stop.arrival_time]
    else if stop.stop_type = "dropoff" then
      acc ++ ["Dropoff at " ++ stop.location.address ++ " at " ++ fmtHM stop.arrival_time]
    else if stop.stop_type = "fuel" then
      acc ++ ["Fueling at " ++ fmtHM stop.arrival_time]
    else acc
  else acc

/-- Lines 99-107: the shipping-document reference for one stop on one day. -/
def shippingFoldStep (current_date : ℤ) (acc : List String) (stop : Stop) : List String :=
  if stop.stop_type = "pickup" ∧ dateOf stop.arrival_time ≤ current_date ∧
      current_date ≤ dateOf stop.departure_time then
    acc ++ ["PU" ++ fmtYMD current_date]
  else if stop.stop_type = "dropoff" ∧ dateOf stop.arrival_time ≤ current_date ∧
      current_date ≤ dateOf stop.departure_time then
    acc ++ ["DO" ++ fmtYMD current_date]
  else acc

/-- Lines 32-116: the body of the per-day `while` loop, producing the log
entry of one calendar day. -/
def buildDayD (dvd : ℚ → ℚ → ℚ) (schedule_data : ScheduleResult) (current_date : ℤ) :
    LogEntry :=
  let day_start : ℚ := 24 * (current_date : ℚ)
  let e := schedule_data.stops.foldl (stopFoldStep day_start) (initLogEntry current_date)
  let e := schedule_data.segments.foldl (segFoldStepD dvd day_start) e
  let remarks := schedule_data.stops.foldl (remarkFoldStep current_date) []
  let e := if remarks.isEmpty then e else { e with remarks := String.intercalate ". " remarks }
  let docs := schedule_data.stops.foldl (shippingFoldStep current_date) []
  let e := if docs.isEmpty then e else { e with shipping_docs := String.intercalate ", " docs }
  { e with total_miles := (pyRound e.total_miles : ℚ) }

/-- `generate_log_sheets` with the proportional-share division as an explicit
parameter. -/
def generate_log_sheets_div (dvd : ℚ → ℚ → ℚ) (schedule_data : ScheduleResult) :
    List LogEntry :=
  let start_date := dateOf schedule_data.start_time
  let end_date0 := dateOf schedule_data.end_time
  let end_date := if 0 < timeOfDay schedule_data.end_time then end_date0 + 1 else end_date0
  (List.range (end_date - start_date + 1).toNat).map
    (fun k => buildDayD dvd schedule_data (start_date + k))

/-- `generate_log_sheets` (lines 12-118): one log entry per calendar day from
the start date to the (possibly extended) end date.  The `while
current_date <= end_date` loop over dates is modelled as a map over the
day count `end_date - start_date + 1` (zero when negative). -/
def generate_log_sheets (schedule_data : ScheduleResult) : List LogEntry :=
  generate_log_sheets_div (fun a b => a / b) schedule_data

/-! ## Concrete fixtures used by counterexamples and witnesses -/

def locA : Location := { address := "Chicago, IL", lat := 0, lng := 0 }
def locB : Location := { address := "Louisville, KY", lat := 8, lng := 8 }
def locC : Location := { address := "Atlanta, GA", lat := 16, lng := 16 }

def simpleSegAB : Segment :=
  { start_location := locA, end_location := locB, distance := 10, duration := 1 }

def simpleSegBC : Segment :=
  { start_location := locB, end_location := locC, distance := 10, duration := 1 }

/-- A minimal valid route: three locations, two one-hour segments. -/
def simpleRoute : RouteData :=
  { locations := [locA, locB, locC],
    segments := [simpleSegAB, simpleSegBC],
    total_distance := 20, total_duration := 2 }

/-! ## C4: determinism of the core -/

/-- The time-shift action on stops. -/
def shiftStop (d : ℚ) (st : Stop) : Stop :=
  { st with arrival_time := st.arrival_time + d, departure_time := st.departure_time + d }

/-- The time-shift action on scheduled segments. -/
def shiftSchedSegment (d : ℚ) (sg : SchedSegment) : SchedSegment :=
  { sg with start_time := sg.start_time + d, end_time := sg.end_time + d }

/-- The time-shift action on loop states: all absolute timestamps move by
`d`; clocks, distances and positions are untouched. -/
def shiftState (d : ℚ) (s : CalcState) : CalcState :=
  { s with
    current_time := s.current_time + d,
    stops := s.stops.map (shiftStop d),
    modified_segments := s.modified_segments.map (shiftSchedSegment d) }

/-- The time-shift action on schedule results. -/
def shiftResult (d : ℚ) (r : ScheduleResult) : ScheduleResult :=
  { r with
    start_time := r.start_time + d,
    end_time := r.end_time + d,
    stops := r.stops.map (shiftStop d),
    segments := r.segments.map (shiftSchedSegment d) }

/--
Counterexample to claim C4 as stated.  Two invocations of
`calculate_hos_compliant_schedule` with equal `route_data` and equal
`current_cycle_hours` still read the wall clock (`datetime.now()` at line 61),
modelled by the `start_time` argument; readings one hour apart (`0` and `1`)
yield different outputs on the same valid route, so the core is not a pure
function of `route_data` and `current_cycle_hours` alone.
-/
theorem c4_counterexample :
    calculate_hos_compliant_schedule simpleRoute 0 0 10 ≠
      calculate_hos_compliant_schedule simpleRoute 0 1 10 ∧
    (calculate_hos_compliant_schedule simpleRoute 0 0 10).isSome = true ∧
    (calculate_hos_compliant_schedule simpleRoute 0 1 10).isSome = true := by
  refine ⟨by with_unfolding_all decide, by with_unfolding_all decide, by with_unfolding_all decide⟩

/-! ## C10: total_distance / total_duration pass through unchanged -/

/--
Claim C10: whenever `calculate_schedule` terminates, the `total_distance` and
`total_duration` fields of the returned dictionary are those of the input
`route_data`, copied through unchanged (the deep copy of line 58 is only
overwritten at the keys `stops`, `segments`, `start_time`, `end_time`).
-/
theorem c10_totals_unchanged (cch t : ℚ) (r : RouteData) (b : ℕ) (res : ScheduleResult)
    (h : calculate_schedule cch t r b = some res) :
    res.total_distance = r.total_distance ∧ res.total_duration = r.total_duration := by
  unfold calculate_schedule at h
  split at h
  · exact absurd h (by simp)
  · cases h
    exact ⟨rfl, rfl⟩

/-- Witness for C10 at a concrete terminating run. -/
def w10Res : ScheduleResult := (calculate_schedule 0 0 simpleRoute 10).getD dummyResult

theorem c10_witness :
    calculate_schedule 0 0 simpleRoute 10 = some w10Res ∧
    w10Res.total_distance = simpleRoute.total_distance ∧
    w10Res.total_duration = simpleRoute.total_duration :=
  ⟨by with_unfolding_all decide,
    c10_totals_unchanged 0 0 simpleRoute 10 w10Res (by with_unfolding_all decide)⟩

/-! ## C8: frame of a fueling-stop insertion -/

/--
Claim C8: when the fueling condition holds (at least 1000 miles accumulated
since the last fueling stop), the fuel insertion advances the clock by half an
hour, decrements `available_window_hours` by half an hour, resets the
fueling-distance counter, and leaves `remaining_cycle_hours`,
`available_driving_hours` and `hours_since_break` unchanged.
-/
theorem c8_fuel_stop_frame (s : CalcState)
    (h : FUELING_INTERVAL_MILES ≤ s.accumulated_distance - s.last_fuel_distance) :
    (fuelCheck s).current_time = s.current_time + FUELING_DURATION ∧
    (fuelCheck s).available_window_hours = s.available_window_hours - FUELING_DURATION ∧
    (fuelCheck s).remaining_cycle_hours = s.remaining_cycle_hours ∧
    (fuelCheck s).available_driving_hours = s.available_driving_hours ∧
    (fuelCheck s).hours_since_break = s.hours_since_break ∧
    (fuelCheck s).last_fuel_distance = s.accumulated_distance ∧
    (fuelCheck s).accumulated_distance - (fuelCheck s).last_fuel_distance = 0 ∧
    (fuelCheck s).stops =
      s.stops ++ [mkStop s.current_location s.current_time "fuel" FUELING_DURATION] := by
  unfold fuelCheck
  rw [if_pos h]
  exact ⟨rfl, rfl, rfl, rfl, rfl, rfl, by simp, rfl⟩

/-- A concrete loop state 1200 miles past the last fueling stop. -/
def w8State : CalcState :=
  { current_time := 3, available_driving_hours := 8, available_window_hours := 11,
    hours_since_break := 3, remaining_cycle_hours := 67, accumulated_distance := 1200,
    last_fuel_distance := 0, is_pickup := false, is_dropoff := false,
    current_location := locB, next_location := locC,
    remaining_segment := dummySegment, stops := [], modified_segments := [] }

theorem c8_witness :
    FUELING_INTERVAL_MILES ≤ w8State.accumulated_distance - w8State.last_fuel_distance ∧
    (fuelCheck w8State).current_time = w8State.current_time + FUELING_DURATION :=
  ⟨by with_unfolding_all decide, (c8_fuel_stop_frame w8State (by with_unfolding_all decide)).1⟩

lemma shiftStop_mkStop (d : ℚ) (loc : Location) (t : ℚ) (ty : String) (q : ℚ) :
    shiftStop d (mkStop loc t ty q) = mkStop loc (t + d) ty q := by
  simp [shiftStop, mkStop]
  ring

lemma shiftSeg_mkSchedSegment (d : ℚ) (l1 l2 : Location) (dist dur t : ℚ) :
    shiftSchedSegment d (mkSchedSegment l1 l2 dist dur t) =
      mkSchedSegment l1 l2 dist dur (t + d) := by
  simp [shiftSchedSegment, mkSchedSegment]
  ring

lemma breakCheck_shift (d : ℚ) (s : CalcState) :
    breakCheck (shiftState d s) = shiftState d (breakCheck s) := by
  by_cases h : MAX_DRIVING_WITHOUT_BREAK ≤ s.hours_since_break <;>
    simp [breakCheck, shiftState, h, shiftStop_mkStop, add_right_comm]

lemma fuelCheck_shift (d : ℚ) (s : CalcState) :
    fuelCheck (shiftState d s) = shiftState d (fuelCheck s) := by
  by_cases h : FUELING_INTERVAL_MILES ≤ s.accumulated_distance - s.last_fuel_distance <;>
    simp [fuelCheck, shiftState, h, shiftStop_mkStop, add_right_comm]

lemma pickupCheck_shift (d : ℚ) (s : CalcState) :
    pickupCheck (shiftState d s) = shiftState d (pickupCheck s) := by
  by_cases h : s.is_pickup <;>
    simp [pickupCheck, shiftState, h, shiftStop_mkStop, add_right_comm]

lemma dropoffCheck_shift (d : ℚ) (s : CalcState) :
    dropoffCheck (shiftState d s) = shiftState d (dropoffCheck s) := by
  by_cases h : s.is_dropoff <;>
    simp [dropoffCheck, shiftState, h, shiftStop_mkStop, add_right_comm]

lemma checksStep_shift (d : ℚ) (s : CalcState) :
    checksStep (shiftState d s) = shiftState d (checksStep s) := by
  simp [checksStep, breakCheck_shift, fuelCheck_shift, pickupCheck_shift, dropoffCheck_shift]

lemma maxDrivingTime_shift (d : ℚ) (s : CalcState) :
    maxDrivingTime (shiftState d s) = maxDrivingTime s := rfl

lemma restStep_shift (d : ℚ) (s : CalcState) :
    restStep (shiftState d s) = shiftState d (restStep s) := by
  simp [restStep, shiftState, shiftStop_mkStop, add_right_comm]

lemma driveOrRest_shift (segIdx : ℕ) (d : ℚ) (s : CalcState) :
    driveOrRest segIdx (shiftState d s) =
      (shiftState d (driveOrRest segIdx s).1, (driveOrRest segIdx s).2) := by
  unfold driveOrRest
  rw [maxDrivingTime_shift]
  by_cases h : maxDrivingTime s ≤ 0
  · simp [h, restStep_shift]
  · by_cases hp : maxDrivingTime s / s.remaining_segment.duration < 1 <;>
      simp [h, hp, shiftState, shiftSeg_mkSchedSegment, add_right_comm]

lemma passStep_shift (segIdx : ℕ) (d : ℚ) (s : CalcState) :
    passStep segIdx (shiftState d s) =
      (shiftState d (passStep segIdx s).1, (passStep segIdx s).2) := by
  unfold passStep
  rw [checksStep_shift, driveOrRest_shift]

lemma processSegmentLoop_shift (n : ℕ) (segIdx : ℕ) (d : ℚ) (s : CalcState) :
    processSegmentLoop n segIdx (shiftState d s) =
      (processSegmentLoop n segIdx s).map (shiftState d) := by
  induction n generalizing s with
  | zero => rfl
  | succ n ih =>
    show (if (passStep segIdx (shiftState d s)).2 then some (passStep segIdx (shiftState d s)).1
        else processSegmentLoop n segIdx (passStep segIdx (shiftState d s)).1) = _
    rw [passStep_shift]
    by_cases hflag : (passStep segIdx s).2 <;>
      simp [processSegmentLoop, hflag, ih]

lemma initSegmentState_shift (r : RouteData) (tot segIdx : ℕ) (seg : Segment) (d : ℚ)
    (s : CalcState) :
    initSegmentState r tot segIdx seg (shiftState d s) =
      shiftState d (initSegmentState r tot segIdx seg s) := by
  unfold initSegmentState
  by_cases h0 : segIdx = 0
  · rw [if_pos h0, if_pos h0]; rfl
  · by_cases h1 : segIdx = tot - 1
    · rw [if_neg h0, if_neg h0, if_pos h1, if_pos h1]; rfl
    · rw [if_neg h0, if_neg h0, if_neg h1, if_neg h1]; rfl

lemma runSegments_shift (r : RouteData) (tot b : ℕ) (d : ℚ) :
    ∀ (segIdx : ℕ) (l : List Segment) (s : CalcState),
      runSegments r tot b segIdx l (shiftState d s) =
        (runSegments r tot b segIdx l s).map (shiftState d)
  | _, [], s => rfl
  | segIdx, seg :: rest, s => by
    rw [runSegments, runSegments, initSegmentState_shift, processSegmentLoop_shift]
    rcases hl : processSegmentLoop b segIdx (initSegmentState r tot segIdx seg s) with _ | s'
    · simp
    · simpa using runSegments_shift r tot b d (segIdx + 1) rest s'

lemma initialState_shift (cch t d : ℚ) (r : RouteData) :
    initialState cch (t + d) r = shiftState d (initialState cch t r) := by
  simp [initialState, shiftState, shiftStop_mkStop]

/--
Amended claim C4: the core is deterministic and side-effect-free once the
single wall-clock reading at entry is accounted for.  Two invocations with
equal `route_data`, equal `current_cycle_hours` and equal clock readings
produce equal outputs, and shifting the clock reading by `d` shifts every
timestamp of the output by exactly `d`, leaving all other output data
unchanged (so outputs of two invocations differ only by the uniform time
shift between their clock readings).
-/
theorem c4_amended_clock_equivariance (cch t d : ℚ) (r : RouteData) (b : ℕ) :
    calculate_schedule cch (t + d) r b = (calculate_schedule cch t r b).map (shiftResult d) := by
  unfold calculate_schedule
  rw [initialState_shift, runSegments_shift]
  rcases hr : runSegments r r.segments.length b 0 r.segments (initialState cch t r) with _ | s
  · simp
  · simp [shiftResult, shiftState, shiftStop_mkStop]

/-! ## C5: end location of a split segment -/

/-- Linear interpolation between `a` and `b` by fraction `frac`, the
operation claim C5 attributes to the split branch. -/
def lerp (a b frac : ℚ) : ℚ := a + (b - a) * frac

/-- A route whose first segment (100 miles, 20 hours) must be split: the
first driving pass covers 8 of 20 hours, a fraction of 2/5. -/
def c5Route : RouteData :=
  { locations := [locA, locB, locC],
    segments := [{ start_location := locA, end_location := locB, distance := 100, duration := 20 },
                 { start_location := locB, end_location := locC, distance := 50, duration := 2 }],
    total_distance := 150, total_duration := 22 }

/-- The first scheduled segment emitted for `c5Route`: a split covering
distance 40 of 100 (fraction 2/5) from `locA` (lat 0) towards `locB` (lat 8). -/
def c5FirstSeg : SchedSegment :=
  ((calculate_schedule 0 0 c5Route 10).getD dummyResult).segments.getD 0 dummySchedSegment

/--
Counterexample to claim C5 as stated.  In the run of `calculate_schedule` on
`c5Route`, the first emitted split segment covers the fraction 2/5 of the
remaining segment's distance, so the distance-proportional linear
interpolation of the latitudes 0 and 8 would be 16/5; the code instead emits
the fixed arithmetic midpoint, latitude 4 (line 212 divides by 2
unconditionally).
-/
theorem c5_counterexample :
    (calculate_schedule 0 0 c5Route 10).isSome = true ∧
    c5FirstSeg.start_location = locA ∧
    c5FirstSeg.distance = 40 ∧
    (c5Route.segments.getD 0 dummySegment).distance = 100 ∧
    lerp locA.lat locB.lat (c5FirstSeg.distance / (c5Route.segments.getD 0 dummySegment).distance)
      = 16 / 5 ∧
    c5FirstSeg.end_location.lat = 4 ∧
    c5FirstSeg.end_location.lat ≠
      lerp locA.lat locB.lat
        (c5FirstSeg.distance / (c5Route.segments.getD 0 dummySegment).distance) := by
  with_unfolding_all decide

lemma driveOrRest_split (segIdx : ℕ) (S : CalcState)
    (hm : ¬ maxDrivingTime S ≤ 0)
    (hp : maxDrivingTime S / S.remaining_segment.duration < 1) :
    (driveOrRest segIdx S).1.modified_segments =
      S.modified_segments ++
        [mkSchedSegment S.current_location (midLocation segIdx S.current_location S.next_location)
          (S.remaining_segment.distance * (maxDrivingTime S / S.remaining_segment.duration))
          (maxDrivingTime S) S.current_time] := by
  unfold driveOrRest
  dsimp only
  rw [if_neg hm, if_pos hp]

/--
Amended claim C5: whenever the drive branch splits a segment
(`segment_progress < 1`), the emitted partial segment's end location is the
fixed arithmetic midpoint of the pass's start and end locations' lat/lng
(average with weight 1/2, independent of the distance fraction covered), with
the synthetic address `"Intermediate point <index>"`.
-/
theorem c5_amended_midpoint (segIdx : ℕ) (s : CalcState)
    (hm : ¬ maxDrivingTime (checksStep s) ≤ 0)
    (hp : maxDrivingTime (checksStep s) / (checksStep s).remaining_segment.duration < 1) :
    ∃ part : SchedSegment,
      (passStep segIdx s).1.modified_segments = (checksStep s).modified_segments ++ [part] ∧
      part.duration = maxDrivingTime (checksStep s) ∧
      part.distance = (checksStep s).remaining_segment.distance *
        (maxDrivingTime (checksStep s) / (checksStep s).remaining_segment.duration) ∧
      part.end_location.address = "Intermediate point " ++ toString segIdx ∧
      part.end_location.lat =
        ((checksStep s).current_location.lat + (checksStep s).next_location.lat) / 2 ∧
      part.end_location.lng =
        ((checksStep s).current_location.lng + (checksStep s).next_location.lng) / 2 :=
  ⟨_, driveOrRest_split segIdx (checksStep s) hm hp, rfl, rfl, rfl, rfl, rfl⟩

/-- A concrete state about to split a 100-mile, 20-hour segment. -/
def w5State : CalcState :=
  { current_time := 0, available_driving_hours := 8, available_window_hours := 14,
    hours_since_break := 0, remaining_cycle_hours := 70, accumulated_distance := 0,
    last_fuel_distance := 0, is_pickup := false, is_dropoff := false,
    current_location := locA, next_location := locB,
    remaining_segment := { start_location := locA, end_location := locB,
                           distance := 100, duration := 20 },
    stops := [], modified_segments := [] }

theorem c5_witness :
    (¬ maxDrivingTime (checksStep w5State) ≤ 0) ∧
    (maxDrivingTime (checksStep w5State) /
      (checksStep w5State).remaining_segment.duration < 1) ∧
    ∃ part : SchedSegment,
      (passStep 3 w5State).1.modified_segments =
        (checksStep w5State).modified_segments ++ [part] ∧
      part.duration = maxDrivingTime (checksStep w5State) ∧
      part.distance = (checksStep w5State).remaining_segment.distance *
        (maxDrivingTime (checksStep w5State) / (checksStep w5State).remaining_segment.duration) ∧
      part.end_location.address = "Intermediate point " ++ toString 3 ∧
      part.end_location.lat =
        ((checksStep w5State).current_location.lat + (checksStep w5State).next_location.lat) / 2 ∧
      part.end_location.lng =
        ((checksStep w5State).current_location.lng + (checksStep w5State).next_location.lng) / 2 :=
  ⟨by with_unfolding_all decide, by with_unfolding_all decide,
    c5_amended_midpoint 3 w5State (by with_unfolding_all decide) (by with_unfolding_all decide)⟩

/-! ## C6: which calendar days get a log entry -/

/-- The last date of the per-day loop: the end timestamp's date, extended by
one day when the end timestamp's time-of-day is nonzero (lines 26-30). -/
def logEndDate (sched : ScheduleResult) : ℤ :=
  if 0 < timeOfDay sched.end_time then dateOf sched.end_time + 1 else dateOf sched.end_time

/-- A five-hour schedule entirely inside calendar day 0. -/
def c6Sched : ScheduleResult :=
  { locations := [locA, locB], total_distance := 10, total_duration := 5,
    stops := [],
    segments := [{ start_location := locA, end_location := locB, distance := 10,
                   duration := 5, start_time := 0, end_time := 5 }],
    start_time := 0, end_time := 5 }

/--
Counterexample to claim C6 as stated.  The trip of `c6Sched` starts and ends
on calendar day 0 (its end timestamp has nonzero time-of-day 5), so the claim
demands exactly one entry, for day 0.  `generate_log_sheets` instead emits two
entries, for days 0 and 1: line 30 extends the end date by one day past the
end timestamp's date, and the trailing entry covers a date with no trip
activity (all its buckets are empty and its mileage is zero).
-/
theorem c6_counterexample :
    dateOf c6Sched.start_time = 0 ∧
    dateOf c6Sched.end_time = 0 ∧
    0 < timeOfDay c6Sched.end_time ∧
    (generate_log_sheets c6Sched).map (fun e => e.date) = [0, 1] ∧
    (generate_log_sheets c6Sched).map (fun e => e.date) ≠ [0] ∧
    ((generate_log_sheets c6Sched).getD 1 (initLogEntry 9)).off_duty = [] ∧
    ((generate_log_sheets c6Sched).getD 1 (initLogEntry 9)).sleeper_berth = [] ∧
    ((generate_log_sheets c6Sched).getD 1 (initLogEntry 9)).driving = [] ∧
    ((generate_log_sheets c6Sched).getD 1 (initLogEntry 9)).on_duty = [] ∧
    ((generate_log_sheets c6Sched).getD 1 (initLogEntry 9)).total_miles = 0 := by
  with_unfolding_all decide

lemma add_activity_date (e : LogEntry) (a : String) (st en ds : ℚ) :
    (add_activity_to_log e a st en ds).date = e.date := by
  simp only [add_activity_to_log]
  split_ifs <;> rfl

lemma stopFoldStep_date (ds : ℚ) (e : LogEntry) (st : Stop) :
    (stopFoldStep ds e st).date = e.date := by
  simp only [stopFoldStep]
  split_ifs <;> simp [add_activity_date]

lemma segFoldStepD_date (dvd : ℚ → ℚ → ℚ) (ds : ℚ) (e : LogEntry) (sg : SchedSegment) :
    (segFoldStepD dvd ds e sg).date = e.date := by
  simp only [segFoldStepD]
  split_ifs <;> simp [add_activity_date]

lemma foldl_date {α : Type} (f : LogEntry → α → LogEntry)
    (hf : ∀ e x, (f e x).date = e.date) :
    ∀ (l : List α) (e : LogEntry), (l.foldl f e).date = e.date
  | [], _ => rfl
  | x :: l, e => by rw [List.foldl_cons, foldl_date f hf l, hf]

lemma buildDayD_date (dvd : ℚ → ℚ → ℚ) (sched : ScheduleResult) (dte : ℤ) :
    (buildDayD dvd sched dte).date = dte := by
  unfold buildDayD
  dsimp only
  split_ifs <;>
    simp [foldl_date _ (fun e x => segFoldStepD_date dvd _ e x),
      foldl_date _ (fun e x => stopFoldStep_date _ e x), initLogEntry]

/--
Amended claim C6: `generate_log_sheets` returns exactly one log entry per
calendar date in a contiguous run that starts at the start timestamp's date
and ends at the end timestamp's date extended by one further day whenever the
end timestamp's time-of-day is nonzero; the trailing entry can therefore
cover a date on which no trip activity occurs.
-/
theorem c6_amended_log_dates (sched : ScheduleResult) :
    (generate_log_sheets sched).map (fun e => e.date) =
      (List.range (logEndDate sched - dateOf sched.start_time + 1).toNat).map
        (fun k => dateOf sched.start_time + (k : ℤ)) := by
  unfold generate_log_sheets generate_log_sheets_div logEndDate
  dsimp only
  rw [List.map_map]
  refine List.map_congr_left (fun k _ => ?_)
  simp [Function.comp, buildDayD_date]

/-! ## C9: zero-duration segments and the mileage division -/

/-- The distance contribution of one scheduled segment to one day's
`total_miles`, as computed by lines 67-82. -/
def milesShare (dvd : ℚ → ℚ → ℚ) (day_start : ℚ) (sg : SchedSegment) : ℚ :=
  if sg.start_time ≥ day_start + 24 ∨ sg.end_time < day_start then 0
  else if sg.end_time > sg.start_time then
    sg.distance *
      dvd (min sg.end_time (day_start + 24) - max sg.start_time day_start)
        (sg.end_time - sg.start_time)
  else 0

lemma add_activity_total_miles (e : LogEntry) (a : String) (st en ds : ℚ) :
    (add_activity_to_log e a st en ds).total_miles = e.total_miles := by
  simp only [add_activity_to_log]
  split_ifs <;> rfl

lemma stopFoldStep_total_miles (ds : ℚ) (e : LogEntry) (st : Stop) :
    (stopFoldStep ds e st).total_miles = e.total_miles := by
  simp only [stopFoldStep]
  split_ifs <;> simp [add_activity_total_miles]

lemma segFoldStepD_total_miles (dvd : ℚ → ℚ → ℚ) (ds : ℚ) (e : LogEntry) (sg : SchedSegment) :
    (segFoldStepD dvd ds e sg).total_miles = e.total_miles + milesShare dvd ds sg := by
  simp only [segFoldStepD, milesShare]
  split_ifs <;> simp [add_activity_total_miles]

lemma foldl_stop_total (ds : ℚ) :
    ∀ (l : List Stop) (e : LogEntry), (l.foldl (stopFoldStep ds) e).total_miles = e.total_miles
  | [], _ => rfl
  | x :: l, e => by
    rw [List.foldl_cons, foldl_stop_total ds l, stopFoldStep_total_miles]

lemma foldl_seg_total (dvd : ℚ → ℚ → ℚ) (ds : ℚ) :
    ∀ (l : List SchedSegment) (e : LogEntry),
      (l.foldl (segFoldStepD dvd ds) e).total_miles =
        e.total_miles + (l.map (milesShare dvd ds)).sum
  | [], e => by simp
  | x :: l, e => by
    rw [List.foldl_cons, foldl_seg_total dvd ds l, segFoldStepD_total_miles]
    simp
    ring

/-- The `total_miles` of a day's entry is the rounded sum of the per-segment
shares; the stop loop and the remark/shipping bookkeeping never touch it. -/
lemma buildDayD_total_miles (dvd : ℚ → ℚ → ℚ) (sched : ScheduleResult) (dte : ℤ) :
    (buildDayD dvd sched dte).total_miles =
      (pyRound ((sched.segments.map (milesShare dvd (24 * (dte : ℚ)))).sum) : ℚ) := by
  unfold buildDayD
  dsimp only
  split_ifs <;>
    simp [foldl_seg_total, foldl_stop_total, initLogEntry]

/-- A zero-duration segment has zero share on every day. -/
lemma milesShare_zero_duration (dvd : ℚ → ℚ → ℚ) (ds : ℚ) (sg : SchedSegment)
    (h : sg.end_time = sg.start_time) : milesShare dvd ds sg = 0 := by
  simp only [milesShare, h]
  split_ifs with h1 h2
  · rfl
  · exact absurd h2 (lt_irrefl _)
  · rfl

lemma segFoldStepD_congr (dvd₁ dvd₂ : ℚ → ℚ → ℚ)
    (hd : ∀ a b, b ≠ 0 → dvd₁ a b = dvd₂ a b) (ds : ℚ) (e : LogEntry) (sg : SchedSegment) :
    segFoldStepD dvd₁ ds e sg = segFoldStepD dvd₂ ds e sg := by
  simp only [segFoldStepD]
  split_ifs with h1 h2
  · rfl
  · rw [hd _ _ (sub_ne_zero.mpr (ne_of_gt h2))]
  · rfl

lemma foldl_seg_congr (dvd₁ dvd₂ : ℚ → ℚ → ℚ)
    (hd : ∀ a b, b ≠ 0 → dvd₁ a b = dvd₂ a b) (ds : ℚ) :
    ∀ (l : List SchedSegment) (e : LogEntry),
      l.foldl (segFoldStepD dvd₁ ds) e = l.foldl (segFoldStepD dvd₂ ds) e
  | [], _ => rfl
  | x :: l, e => by
    rw [List.foldl_cons, List.foldl_cons, segFoldStepD_congr dvd₁ dvd₂ hd,
      foldl_seg_congr dvd₁ dvd₂ hd ds l]

lemma buildDayD_congr (dvd₁ dvd₂ : ℚ → ℚ → ℚ)
    (hd : ∀ a b, b ≠ 0 → dvd₁ a b = dvd₂ a b) (sched : ScheduleResult) (dte : ℤ) :
    buildDayD dvd₁ sched dte = buildDayD dvd₂ sched dte := by
  unfold buildDayD
  dsimp only
  rw [foldl_seg_congr dvd₁ dvd₂ hd]

/--
Claim C9: a scheduled segment of zero duration contributes no distance to any
day's `total_miles` (prepending such a segment to a schedule leaves every
day's mileage unchanged), and the per-day mileage computation never divides
by zero: the entire log output is unchanged if the division operation is
replaced by any function agreeing with it on nonzero denominators, because
the guard of line 80 only consults the division when the segment's duration
is positive.
-/
theorem c9_zero_duration_and_division (sched : ScheduleResult) (sg : SchedSegment)
    (h : sg.end_time = sg.start_time) :
    ((generate_log_sheets { sched with segments := sg :: sched.segments }).map
        (fun e => e.total_miles) =
      (generate_log_sheets sched).map (fun e => e.total_miles)) ∧
    (∀ dvd₁ dvd₂ : ℚ → ℚ → ℚ, (∀ a b, b ≠ 0 → dvd₁ a b = dvd₂ a b) →
      generate_log_sheets_div dvd₁ sched = generate_log_sheets_div dvd₂ sched) ∧
    generate_log_sheets sched = generate_log_sheets_div (fun a b => a / b) sched := by
  refine ⟨?_, ?_, rfl⟩
  · unfold generate_log_sheets generate_log_sheets_div
    dsimp only
    rw [List.map_map, List.map_map]
    refine List.map_congr_left (fun k _ => ?_)
    simp only [Function.comp_apply, buildDayD_total_miles, List.map_cons, List.sum_cons,
      milesShare_zero_duration _ _ _ h, zero_add]
  · intro dvd₁ dvd₂ hd
    unfold generate_log_sheets_div
    dsimp only
    refine List.map_congr_left (fun k _ => ?_)
    exact buildDayD_congr dvd₁ dvd₂ hd sched _

/-- A zero-duration scheduled segment at hour 2 of day 0. -/
def w9Seg : SchedSegment :=
  { start_location := locA, end_location := locA, distance := 37,
    duration := 0, start_time := 2, end_time := 2 }

theorem c9_witness :
    w9Seg.end_time = w9Seg.start_time ∧
    (generate_log_sheets { c6Sched with segments := w9Seg :: c6Sched.segments }).map
        (fun e => e.total_miles) =
      (generate_log_sheets c6Sched).map (fun e => e.total_miles) :=
  ⟨by with_unfolding_all decide,
    (c9_zero_duration_and_division c6Sched w9Seg (by with_unfolding_all decide)).1⟩

/-! ## C2: every split distance sums back to the segment distance -/

/-- Total distance of a list of scheduled segments. -/
def sumDistances (l : List SchedSegment) : ℚ := (l.map (fun sg => sg.distance)).sum

lemma breakCheck_modified (s : CalcState) :
    (breakCheck s).modified_segments = s.modified_segments ∧
    (breakCheck s).remaining_segment = s.remaining_segment := by
  simp only [breakCheck]; split_ifs <;> exact ⟨rfl, rfl⟩

lemma fuelCheck_modified (s : CalcState) :
    (fuelCheck s).modified_segments = s.modified_segments ∧
    (fuelCheck s).remaining_segment = s.remaining_segment := by
  simp only [fuelCheck]; split_ifs <;> exact ⟨rfl, rfl⟩

lemma pickupCheck_modified (s : CalcState) :
    (pickupCheck s).modified_segments = s.modified_segments ∧
    (pickupCheck s).remaining_segment = s.remaining_segment := by
  simp only [pickupCheck]; split_ifs <;> exact ⟨rfl, rfl⟩

lemma dropoffCheck_modified (s : CalcState) :
    (dropoffCheck s).modified_segments = s.modified_segments ∧
    (dropoffCheck s).remaining_segment = s.remaining_segment := by
  simp only [dropoffCheck]; split_ifs <;> exact ⟨rfl, rfl⟩

/-- The insertion steps touch neither the emitted segments nor the remaining
segment. -/
lemma checksStep_modified (s : CalcState) :
    (checksStep s).modified_segments = s.modified_segments ∧
    (checksStep s).remaining_segment = s.remaining_segment := by
  unfold checksStep
  rw [(dropoffCheck_modified _).1, (pickupCheck_modified _).1, (fuelCheck_modified _).1,
    (breakCheck_modified _).1, (dropoffCheck_modified _).2, (pickupCheck_modified _).2,
    (fuelCheck_modified _).2, (breakCheck_modified _).2]
  exact ⟨rfl, rfl⟩

lemma sumDistances_append (l : List SchedSegment) (x : SchedSegment) :
    sumDistances (l ++ [x]) = sumDistances l + x.distance := by
  simp [sumDistances]

/-- A pass that completes the segment emits exactly the remaining distance. -/
lemma driveOrRest_done_sum (segIdx : ℕ) (S : CalcState)
    (h : (driveOrRest segIdx S).2 = true) :
    sumDistances (driveOrRest segIdx S).1.modified_segments =
      sumDistances S.modified_segments + S.remaining_segment.distance := by
  unfold driveOrRest at h ⊢
  dsimp only at h ⊢
  by_cases hm : maxDrivingTime S ≤ 0
  · rw [if_pos hm] at h
    exact absurd h (by simp)
  · rw [if_neg hm] at h ⊢
    by_cases hp : maxDrivingTime S / S.remaining_segment.duration < 1
    · rw [if_pos hp] at h
      exact absurd h (by simp)
    · rw [if_neg hp]
      exact sumDistances_append _ _

/-- A pass that does not complete the segment preserves the sum of the
emitted distances plus the remaining distance. -/
lemma driveOrRest_cont_sum (segIdx : ℕ) (S : CalcState)
    (h : (driveOrRest segIdx S).2 = false) :
    sumDistances (driveOrRest segIdx S).1.modified_segments +
        (driveOrRest segIdx S).1.remaining_segment.distance =
      sumDistances S.modified_segments + S.remaining_segment.distance := by
  unfold driveOrRest at h ⊢
  dsimp only at h ⊢
  by_cases hm : maxDrivingTime S ≤ 0
  · rw [if_pos hm]
    rfl
  · rw [if_neg hm] at h ⊢
    by_cases hp : maxDrivingTime S / S.remaining_segment.duration < 1
    · rw [if_pos hp]
      rw [sumDistances_append]
      dsimp only [mkSchedSegment]
      ring
    · rw [if_neg hp] at h
      exact absurd h (by simp)

/--
Claim C2: whenever the inner per-segment loop of `calculate_schedule`
terminates, the distances of the scheduled segments it emitted while
consuming the segment sum to exactly the segment's remaining distance on
entry (for a fresh route segment, its original distance).  In this exact
rational model the floating-point tolerance of the claim becomes equality.
-/
theorem c2_split_distances_sum (n segIdx : ℕ) (s s' : CalcState)
    (h : processSegmentLoop n segIdx s = some s') :
    sumDistances s'.modified_segments =
      sumDistances s.modified_segments + s.remaining_segment.distance := by
  induction n generalizing s with
  | zero => exact absurd h (by simp [processSegmentLoop])
  | succ n ih =>
    rw [show processSegmentLoop (n + 1) segIdx s =
        (if (driveOrRest segIdx (checksStep s)).2 then some (driveOrRest segIdx (checksStep s)).1
         else processSegmentLoop n segIdx (driveOrRest segIdx (checksStep s)).1) from rfl] at h
    by_cases hflag : (driveOrRest segIdx (checksStep s)).2
    · rw [if_pos hflag] at h
      cases h
      have hd := driveOrRest_done_sum segIdx (checksStep s) hflag
      rwa [(checksStep_modified s).1, (checksStep_modified s).2] at hd
    · rw [if_neg hflag] at h
      have h2 := driveOrRest_cont_sum segIdx (checksStep s) (by simpa using hflag)
      rw [(checksStep_modified s).1, (checksStep_modified s).2] at h2
      rw [ih _ h]
      exact h2

/-- Witness: the 100-mile segment of `w5State` is consumed in several split
passes whose distances sum back to 100. -/
def w2Out : CalcState := (processSegmentLoop 10 0 w5State).getD w5State

theorem c2_witness :
    processSegmentLoop 10 0 w5State = some w2Out ∧
    sumDistances w2Out.modified_segments =
      sumDistances w5State.modified_segments + w5State.remaining_segment.distance :=
  ⟨by with_unfolding_all decide,
    c2_split_distances_sum 10 0 w5State w2Out (by with_unfolding_all decide)⟩

/-! ## C3: non-negativity of the driving and window clocks -/

/-- Segments of the C3 route: a 1000-mile 8-hour leg, a 1000-mile 3-hour leg
and a 10-mile 1-hour final leg. -/
def c3SegA : Segment :=
  { start_location := locA, end_location := locB, distance := 1000, duration := 8 }

def c3SegB : Segment :=
  { start_location := locA, end_location := locB, distance := 1000, duration := 3 }

def c3SegC : Segment :=
  { start_location := locA, end_location := locB, distance := 10, duration := 1 }

/-- A valid route (3 locations, 3 segments, all durations positive) on which
the window clock is nearly exhausted when the dropoff segment opens. -/
def c3Route : RouteData :=
  { locations := [locA, locB, locC],
    segments := [c3SegA, c3SegB, c3SegC],
    total_distance := 2010, total_duration := 12 }

/-- The loop state after the first two segments of `c3Route` are consumed:
the window clock is down to 1 hour (14 - 1 pickup - 11 driving - 0.5 break
- 0.5 fuel) and 1000 fresh miles stand accumulated since the last fueling
stop. -/
def c3StateAfter2 : CalcState :=
  (runSegments c3Route 3 20 0 (c3Route.segments.take 2)
    (initialState 0 0 c3Route)).getD (initialState 0 0 c3Route)

set_option maxRecDepth 4000 in
/--
Counterexample to claim C3 as stated.  On the valid route `c3Route` (run with
`current_cycle_hours = 0`), the pass that opens the third (dropoff) segment
finds `available_window_hours = 1`: the fueling stop decrements it to 1/2 and
the dropoff insertion then drives it to -1/2, negative immediately after the
decrement — the insertion decrements of lines 125, 139, 153 and 167 are not
clamped by the minimum-selection step.  The run still terminates (a rest
follows), so the negative value occurs inside a completed run of
`calculate_schedule`.
-/
theorem c3_counterexample :
    runSegments c3Route 3 20 0 (c3Route.segments.take 2) (initialState 0 0 c3Route)
      = some c3StateAfter2 ∧
    c3Route.segments.getD 2 dummySegment = c3SegC ∧
    (calculate_schedule 0 0 c3Route 20).isSome = true ∧
    c3StateAfter2.available_window_hours = 1 ∧
    (fuelCheck (breakCheck (initSegmentState c3Route 3 2 c3SegC
      c3StateAfter2))).available_window_hours = 1 / 2 ∧
    (checksStep (initSegmentState c3Route 3 2 c3SegC
      c3StateAfter2)).available_window_hours = -(1 / 2) ∧
    (checksStep (initSegmentState c3Route 3 2 c3SegC
      c3StateAfter2)).available_window_hours < 0 := by
  refine ⟨by with_unfolding_all decide, by with_unfolding_all decide,
    by with_unfolding_all decide, by with_unfolding_all decide,
    by with_unfolding_all decide, by with_unfolding_all decide,
    by with_unfolding_all decide⟩

lemma maxDrivingTime_le_driving (S : CalcState) :
    maxDrivingTime S ≤ S.available_driving_hours := by
  unfold maxDrivingTime
  exact le_trans (min_le_left _ _)
    (le_trans (min_le_left _ _) (le_trans (min_le_left _ _) (min_le_left _ _)))

lemma maxDrivingTime_le_window (S : CalcState) :
    maxDrivingTime S ≤ S.available_window_hours := by
  unfold maxDrivingTime
  exact le_trans (min_le_left _ _)
    (le_trans (min_le_left _ _) (le_trans (min_le_left _ _) (min_le_right _ _)))

lemma maxDrivingTime_le_duration (S : CalcState) :
    maxDrivingTime S ≤ S.remaining_segment.duration := by
  unfold maxDrivingTime
  exact le_trans (min_le_left _ _) (le_trans (min_le_left _ _) (min_le_right _ _))

/-- In a driving pass, both clock decrements are clamped by the minimum. -/
lemma passStep_drive_clamped (segIdx : ℕ) (s : CalcState)
    (hm : ¬ maxDrivingTime (checksStep s) ≤ 0) :
    0 ≤ (passStep segIdx s).1.available_driving_hours ∧
    0 ≤ (passStep segIdx s).1.available_window_hours := by
  have hdrv := maxDrivingTime_le_driving (checksStep s)
  have hwin := maxDrivingTime_le_window (checksStep s)
  have hdur := maxDrivingTime_le_duration (checksStep s)
  unfold passStep driveOrRest
  dsimp only
  rw [if_neg hm]
  by_cases hp : maxDrivingTime (checksStep s) / (checksStep s).remaining_segment.duration < 1
  · rw [if_pos hp]
    constructor
    · show 0 ≤ (checksStep s).available_driving_hours - maxDrivingTime (checksStep s)
      linarith
    · show 0 ≤ (checksStep s).available_window_hours - maxDrivingTime (checksStep s)
      linarith
  · rw [if_neg hp]
    have hm' : 0 < maxDrivingTime (checksStep s) := not_le.mp hm
    have hdur0 : 0 < (checksStep s).remaining_segment.duration := lt_of_lt_of_le hm' hdur
    rw [div_lt_one hdur0] at hp
    have hge : (checksStep s).remaining_segment.duration ≤ maxDrivingTime (checksStep s) :=
      not_lt.mp hp
    constructor
    · show 0 ≤ (checksStep s).available_driving_hours - (checksStep s).remaining_segment.duration
      linarith
    · show 0 ≤ (checksStep s).available_window_hours - (checksStep s).remaining_segment.duration
      linarith

/-- A rest pass resets the driving clock to 11 hours. -/
lemma passStep_rest_driving (segIdx : ℕ) (s : CalcState)
    (hm : maxDrivingTime (checksStep s) ≤ 0) :
    (passStep segIdx s).1.available_driving_hours = MAX_DRIVING_HOURS := by
  unfold passStep driveOrRest
  dsimp only
  rw [if_pos hm]
  rfl

/--
Amended claim C3: after every pass of the inner loop the driving clock
`available_driving_hours` is non-negative (it is decremented only by the
clamped driving amount and reset to 11 by a rest), and whenever a pass takes
the drive branch both `available_driving_hours` and `available_window_hours`
are non-negative immediately after the driving decrement (clamped by the
minimum-selection step); but — unlike the claim — the break, fuel, pickup and
dropoff insertions decrement `available_window_hours` without clamping, and
it can be negative immediately after such an insertion (see the
counterexample).
-/
theorem c3_amended_clock_nonnegativity :
    (∀ (segIdx : ℕ) (s : CalcState), 0 ≤ (passStep segIdx s).1.available_driving_hours) ∧
    (∀ (segIdx : ℕ) (s : CalcState), ¬ maxDrivingTime (checksStep s) ≤ 0 →
      0 ≤ (passStep segIdx s).1.available_driving_hours ∧
      0 ≤ (passStep segIdx s).1.available_window_hours) := by
  constructor
  · intro segIdx s
    by_cases hm : maxDrivingTime (checksStep s) ≤ 0
    · rw [passStep_rest_driving segIdx s hm]
      norm_num [MAX_DRIVING_HOURS]
    · exact (passStep_drive_clamped segIdx s hm).1
  · exact fun segIdx s hm => passStep_drive_clamped segIdx s hm

theorem c3_witness :
    (0 ≤ (passStep 0 w5State).1.available_driving_hours) ∧
    (¬ maxDrivingTime (checksStep w5State) ≤ 0) ∧
    (0 ≤ (passStep 0 w5State).1.available_driving_hours ∧
      0 ≤ (passStep 0 w5State).1.available_window_hours) :=
  ⟨c3_amended_clock_nonnegativity.1 0 w5State, by with_unfolding_all decide,
    c3_amended_clock_nonnegativity.2 0 w5State (by with_unfolding_all decide)⟩

/-! ## C1: termination of `calculate_schedule` -/

/-- Termination of the Python `while` loops in this model: some pass budget
makes the run return a result. -/
def TerminatesOn (route : RouteData) (current_cycle_hours start_time : ℚ) : Prop :=
  ∃ fuelBudget : ℕ, (calculate_schedule current_cycle_hours start_time route fuelBudget).isSome

/-- A state from which the inner loop can never make progress again: the
cycle clock is exhausted and no insertion can fire, so every pass takes the
rest branch — which restores the driving and window clocks but not the cycle
clock. -/
abbrev CycleStuck (s : CalcState) : Prop :=
  s.remaining_cycle_hours ≤ 0 ∧
  s.hours_since_break < MAX_DRIVING_WITHOUT_BREAK ∧
  s.accumulated_distance - s.last_fuel_distance < FUELING_INTERVAL_MILES ∧
  s.is_pickup = false ∧
  s.is_dropoff = false

lemma maxDrivingTime_le_cycle (S : CalcState) :
    maxDrivingTime S ≤ S.remaining_cycle_hours := by
  unfold maxDrivingTime
  exact min_le_right _ _

lemma checksStep_of_cycleStuck (s : CalcState) (h : CycleStuck s) : checksStep s = s := by
  obtain ⟨_, h2, h3, h4, h5⟩ := h
  have hb : breakCheck s = s := by
    unfold breakCheck; rw [if_neg (not_le.mpr h2)]
  have hf : fuelCheck s = s := by
    unfold fuelCheck; rw [if_neg (not_le.mpr h3)]
  have hp : pickupCheck s = s := by
    simp [pickupCheck, h4]
  have hd : dropoffCheck s = s := by
    simp [dropoffCheck, h5]
  unfold checksStep
  rw [hb, hf, hp, hd]

lemma passStep_of_cycleStuck (segIdx : ℕ) (s : CalcState) (h : CycleStuck s) :
    passStep segIdx s = (restStep s, false) := by
  unfold passStep
  rw [checksStep_of_cycleStuck s h]
  unfold driveOrRest
  dsimp only
  rw [if_pos (le_trans (maxDrivingTime_le_cycle s) h.1)]

lemma cycleStuck_restStep (s : CalcState) (h : CycleStuck s) : CycleStuck (restStep s) := by
  obtain ⟨h1, _, h3, h4, h5⟩ := h
  refine ⟨h1, ?_, h3, h4, h5⟩
  show (0 : ℚ) < MAX_DRIVING_WITHOUT_BREAK
  norm_num [MAX_DRIVING_WITHOUT_BREAK]

/-- From a cycle-stuck state the inner loop runs out of any budget. -/
lemma processSegmentLoop_of_cycleStuck :
    ∀ (n segIdx : ℕ) (s : CalcState), CycleStuck s → processSegmentLoop n segIdx s = none
  | 0, _, _, _ => rfl
  | n + 1, segIdx, s, h => by
    show (if (passStep segIdx s).2 then some (passStep segIdx s).1
          else processSegmentLoop n segIdx (passStep segIdx s).1) = none
    rw [passStep_of_cycleStuck segIdx s h]
    exact processSegmentLoop_of_cycleStuck n segIdx (restStep s) (cycleStuck_restStep s h)

/-- The state at the top of the inner loop for the first segment of
`simpleRoute` when all 70 cycle hours are already used. -/
def c1S0 : CalcState :=
  initSegmentState simpleRoute simpleRoute.segments.length 0 simpleSegAB
    (initialState 70 0 simpleRoute)

lemma c1_first_pass : (passStep 0 c1S0).2 = false := by
  with_unfolding_all decide

lemma c1_first_pass_stuck : CycleStuck (passStep 0 c1S0).1 := by
  with_unfolding_all decide

lemma c1_inner_none (n : ℕ) : processSegmentLoop n 0 c1S0 = none := by
  cases n with
  | zero => rfl
  | succ n =>
    show (if (passStep 0 c1S0).2 then some (passStep 0 c1S0).1
          else processSegmentLoop n 0 (passStep 0 c1S0).1) = none
    rw [c1_first_pass]
    exact processSegmentLoop_of_cycleStuck n 0 _ c1_first_pass_stuck

/--
Claim C1 is the intended behaviour and the code violates it: on the valid
route `simpleRoute` (three locations, two segments of positive duration) with
`current_cycle_hours = 70` — inside the claim's stated range 0..70 —
`calculate_schedule` never terminates.  The first pass performs the pickup,
driving `remaining_cycle_hours` to -1; every later pass computes
`max_driving_time ≤ remaining_cycle_hours ≤ 0` and inserts a 10-hour rest,
which restores the driving and window clocks but never the cycle clock, so
the inner `while` loop of lines 111-258 spins forever.  In the fueled model:
no pass budget whatsoever makes the run return.
-/
theorem c1_cycle_exhaustion_nontermination :
    simpleRoute.locations.length = 3 ∧
    simpleRoute.segments.length = 2 ∧
    (∀ sg ∈ simpleRoute.segments, 0 < sg.duration) ∧
    ¬ TerminatesOn simpleRoute 70 0 := by
  refine ⟨rfl, rfl, by with_unfolding_all decide, ?_⟩
  rintro ⟨b, hb⟩
  have hrun : runSegments simpleRoute simpleRoute.segments.length b 0 simpleRoute.segments
      (initialState 70 0 simpleRoute) = none := by
    show (match processSegmentLoop b 0 c1S0 with
          | none => none
          | some s' => runSegments simpleRoute simpleRoute.segments.length b 1 [simpleSegBC] s')
        = none
    rw [c1_inner_none b]
  unfold calculate_schedule at hb
  rw [hrun] at hb
  simp at hb

/-! ## C7: chronological consistency of stops and segments -/

/-- Well-formedness of the event lists accumulated so far, at clock `t`:
every stop's departure is its arrival plus its duration, durations are
non-negative, all events end by `t`, each list is chronologically chained,
and no stop overlaps a scheduled segment. -/
def EventsWF (t : ℚ) (stops : List Stop) (segs : List SchedSegment) : Prop :=
  (∀ st ∈ stops, st.departure_time = st.arrival_time + st.duration ∧
    0 ≤ st.duration ∧ st.departure_time ≤ t) ∧
  (∀ sg ∈ segs, sg.end_time = sg.start_time + sg.duration ∧
    0 ≤ sg.duration ∧ sg.end_time ≤ t) ∧
  List.Chain' (fun a b => a.departure_time ≤ b.arrival_time) stops ∧
  List.Chain' (fun a b => a.end_time ≤ b.start_time) segs ∧
  (∀ st ∈ stops, ∀ sg ∈ segs, st.departure_time ≤ sg.start_time ∨ sg.end_time ≤ st.arrival_time)

/-- Well-formedness of a loop state's accumulated events. -/
abbrev StateWF (s : CalcState) : Prop :=
  EventsWF s.current_time s.stops s.modified_segments

lemma EventsWF.addStop {t : ℚ} {stops : List Stop} {segs : List SchedSegment}
    (h : EventsWF t stops segs) (loc : Location) (ty : String) {d : ℚ} (hd : 0 ≤ d) :
    EventsWF (t + d) (stops ++ [mkStop loc t ty d]) segs := by
  obtain ⟨h1, h2, h3, h4, h5⟩ := h
  have hle : t ≤ t + d := le_add_of_nonneg_right hd
  refine ⟨?_, ?_, ?_, h4, ?_⟩
  · intro st hst
    rcases List.mem_append.mp hst with hmem | hmem
    · exact ⟨(h1 st hmem).1, (h1 st hmem).2.1, le_trans (h1 st hmem).2.2 hle⟩
    · rcases List.mem_singleton.mp hmem with rfl
      exact ⟨rfl, hd, le_refl _⟩
  · intro sg hsg
    exact ⟨(h2 sg hsg).1, (h2 sg hsg).2.1, le_trans (h2 sg hsg).2.2 hle⟩
  · rw [List.chain'_append]
    refine ⟨h3, List.chain'_singleton _, ?_⟩
    intro x hx y hy
    have hxmem : x ∈ stops := List.mem_of_getLast?_eq_some (Option.mem_def.mp hx)
    have hy' : mkStop loc t ty d = y := by simpa using hy
    subst hy'
    exact (h1 x hxmem).2.2
  · intro st hst sg hsg
    rcases List.mem_append.mp hst with hmem | hmem
    · exact h5 st hmem sg hsg
    · rcases List.mem_singleton.mp hmem with rfl
      exact Or.inr (h2 sg hsg).2.2

lemma EventsWF.addSeg {t : ℚ} {stops : List Stop} {segs : List SchedSegment}
    (h : EventsWF t stops segs) (l1 l2 : Location) (dist : ℚ) {d : ℚ} (hd : 0 ≤ d) :
    EventsWF (t + d) stops (segs ++ [mkSchedSegment l1 l2 dist d t]) := by
  obtain ⟨h1, h2, h3, h4, h5⟩ := h
  have hle : t ≤ t + d := le_add_of_nonneg_right hd
  refine ⟨?_, ?_, h3, ?_, ?_⟩
  · intro st hst
    exact ⟨(h1 st hst).1, (h1 st hst).2.1, le_trans (h1 st hst).2.2 hle⟩
  · intro sg hsg
    rcases List.mem_append.mp hsg with hmem | hmem
    · exact ⟨(h2 sg hmem).1, (h2 sg hmem).2.1, le_trans (h2 sg hmem).2.2 hle⟩
    · rcases List.mem_singleton.mp hmem with rfl
      exact ⟨rfl, hd, le_refl _⟩
  · rw [List.chain'_append]
    refine ⟨h4, List.chain'_singleton _, ?_⟩
    intro x hx y hy
    have hxmem : x ∈ segs := List.mem_of_getLast?_eq_some (Option.mem_def.mp hx)
    have hy' : mkSchedSegment l1 l2 dist d t = y := by simpa using hy
    subst hy'
    exact (h2 x hxmem).2.2
  · intro st hst sg hsg
    rcases List.mem_append.mp hsg with hmem | hmem
    · exact h5 st hst sg hmem
    · rcases List.mem_singleton.mp hmem with rfl
      exact Or.inl (h1 st hst).2.2

lemma breakCheck_WF (s : CalcState) (h : StateWF s) : StateWF (breakCheck s) := by
  unfold breakCheck
  split_ifs
  · exact h.addStop _ _ (by norm_num [MIN_BREAK_DURATION])
  · exact h

lemma fuelCheck_WF (s : CalcState) (h : StateWF s) : StateWF (fuelCheck s) := by
  unfold fuelCheck
  split_ifs
  · exact h.addStop _ _ (by norm_num [FUELING_DURATION])
  · exact h

lemma pickupCheck_WF (s : CalcState) (h : StateWF s) : StateWF (pickupCheck s) := by
  unfold pickupCheck
  split_ifs
  · exact h.addStop _ _ (by norm_num [PICKUP_DROPOFF_DURATION])
  · exact h

lemma dropoffCheck_WF (s : CalcState) (h : StateWF s) : StateWF (dropoffCheck s) := by
  unfold dropoffCheck
  split_ifs
  · exact h.addStop _ _ (by norm_num [PICKUP_DROPOFF_DURATION])
  · exact h

lemma checksStep_WF (s : CalcState) (h : StateWF s) : StateWF (checksStep s) :=
  dropoffCheck_WF _ (pickupCheck_WF _ (fuelCheck_WF _ (breakCheck_WF _ h)))

lemma driveOrRest_WF (segIdx : ℕ) (S : CalcState) (h : StateWF S) :
    StateWF (driveOrRest segIdx S).1 := by
  unfold driveOrRest
  dsimp only
  by_cases hm : maxDrivingTime S ≤ 0
  · rw [if_pos hm]
    exact h.addStop _ _ (by norm_num [MIN_REST_DURATION])
  · rw [if_neg hm]
    have hm' : 0 < maxDrivingTime S := not_le.mp hm
    by_cases hp : maxDrivingTime S / S.remaining_segment.duration < 1
    · rw [if_pos hp]
      exact h.addSeg _ _ _ (le_of_lt hm')
    · rw [if_neg hp]
      have hdur0 : 0 < S.remaining_segment.duration :=
        lt_of_lt_of_le hm' (maxDrivingTime_le_duration S)
      exact h.addSeg _ _ _ (le_of_lt hdur0)

lemma passStep_WF (segIdx : ℕ) (s : CalcState) (h : StateWF s) :
    StateWF (passStep segIdx s).1 :=
  driveOrRest_WF segIdx (checksStep s) (checksStep_WF s h)

lemma processSegmentLoop_WF :
    ∀ (n segIdx : ℕ) (s s' : CalcState), StateWF s →
      processSegmentLoop n segIdx s = some s' → StateWF s'
  | 0, _, _, _, _, heq => absurd heq (by simp [processSegmentLoop])
  | n + 1, segIdx, s, s', h, heq => by
    rw [show processSegmentLoop (n + 1) segIdx s =
        (if (passStep segIdx s).2 then some (passStep segIdx s).1
         else processSegmentLoop n segIdx (passStep segIdx s).1) from rfl] at heq
    by_cases hflag : (passStep segIdx s).2
    · rw [if_pos hflag] at heq
      cases heq
      exact passStep_WF segIdx s h
    · rw [if_neg hflag] at heq
      exact processSegmentLoop_WF n segIdx _ s' (passStep_WF segIdx s h) heq

lemma initSegmentState_WF (r : RouteData) (tot segIdx : ℕ) (seg : Segment) (s : CalcState)
    (h : StateWF s) : StateWF (initSegmentState r tot segIdx seg s) := by
  unfold initSegmentState
  split_ifs <;> exact h

lemma runSegments_WF (r : RouteData) (tot b : ℕ) :
    ∀ (segIdx : ℕ) (l : List Segment) (s s' : CalcState), StateWF s →
      runSegments r tot b segIdx l s = some s' → StateWF s'
  | _, [], s, s', h, heq => by
    cases heq
    exact h
  | segIdx, seg :: rest, s, s', h, heq => by
    rw [show runSegments r tot b segIdx (seg :: rest) s =
        (match processSegmentLoop b segIdx (initSegmentState r tot segIdx seg s) with
         | none => none
         | some s1 => runSegments r tot b (segIdx + 1) rest s1) from rfl] at heq
    rcases hpl : processSegmentLoop b segIdx (initSegmentState r tot segIdx seg s) with _ | s1
    · rw [hpl] at heq
      exact absurd heq (by simp)
    · rw [hpl] at heq
      exact runSegments_WF r tot b (segIdx + 1) rest s1 s'
        (processSegmentLoop_WF b segIdx _ s1 (initSegmentState_WF r tot segIdx seg s h) hpl) heq

lemma initialState_WF (cch t : ℚ) (r : RouteData) : StateWF (initialState cch t r) := by
  refine ⟨?_, ?_, ?_, ?_, ?_⟩
  · intro st hst
    rcases List.mem_singleton.mp hst with rfl
    exact ⟨rfl, le_refl 0, by simp [mkStop, initialState]⟩
  · intro sg hsg
    exact absurd hsg (List.not_mem_nil _)
  · exact List.chain'_singleton _
  · exact List.chain'_nil
  · intro st hst sg hsg
    exact absurd hsg (List.not_mem_nil _)

/--
Claim C7: in every schedule returned by `calculate_schedule`, each stop's
departure time is its arrival time plus its duration, the stops and the
scheduled segments are each non-decreasing in time in emission order, and no
scheduled segment overlaps a stop: each stop either departs before the
segment starts or arrives after it ends (so the merged event sequence is
non-decreasing in time).
-/
theorem c7_schedule_monotone (cch t : ℚ) (r : RouteData) (b : ℕ) (res : ScheduleResult)
    (h : calculate_schedule cch t r b = some res) :
    (∀ st ∈ res.stops, st.departure_time = st.arrival_time + st.duration) ∧
    List.Chain' (fun a b => a.departure_time ≤ b.arrival_time) res.stops ∧
    List.Chain' (fun a b => a.end_time ≤ b.start_time) res.segments ∧
    (∀ st ∈ res.stops, ∀ sg ∈ res.segments,
      st.departure_time ≤ sg.start_time ∨ sg.end_time ≤ st.arrival_time) := by
  unfold calculate_schedule at h
  split at h
  · exact absurd h (by simp)
  · rename_i s hrun
    cases h
    have hwf : StateWF s := runSegments_WF r r.segments.length b 0 r.segments _ s
      (initialState_WF cch t r) hrun
    have hfin := hwf.addStop (r.locations.getLastD dummyLocation) "end" (le_refl 0)
    obtain ⟨h1, _, h3, h4, h5⟩ := hfin
    exact ⟨fun st hst => (h1 st hst).1, h3, h4, h5⟩

theorem c7_witness :
    calculate_schedule 0 0 simpleRoute 10 = some w10Res ∧
    (∀ st ∈ w10Res.stops, st.departure_time = st.arrival_time + st.duration) ∧
    List.Chain' (fun a b => a.departure_time ≤ b.arrival_time) w10Res.stops ∧
    List.Chain' (fun a b => a.end_time ≤ b.start_time) w10Res.segments ∧
    (∀ st ∈ w10Res.stops, ∀ sg ∈ w10Res.segments,
      st.departure_time ≤ sg.start_time ∨ sg.end_time ≤ st.arrival_time) :=
  ⟨by with_unfolding_all decide,
    c7_schedule_monotone 0 0 simpleRoute 10 w10Res (by with_unfolding_all decide)⟩
